import Mathlib

/-!
Verification of the lifting-diary data-access and mutation layer.

Shallow embedding of:
- `src/db/schema.ts` — the relational tables (workouts, exercises, sets) and
  their ON DELETE CASCADE foreign keys;
- `src/data/workouts.ts` — the data-access helpers
  (`getWorkoutsForUserByDate`, `getWorkoutById`, `createWorkout`,
  `updateWorkout`, `deleteWorkout`);
- the server actions `createWorkoutAction`
  (src/app/dashboard/workout/[workoutId]/page.tsx) and `updateWorkoutAction`
  (src/app/dashboard/page.tsx) with their Zod validation schemas.

Modelling choices:
- JS `Date` values are `Int` milliseconds since the epoch.  `setHours` works
  on local wall-clock time, so the local timezone is an explicit offset
  parameter `tz` (local time = UTC + tz milliseconds).
- UUIDs are `Nat`; the database hands out fresh ids from a counter `nextId`
  (`defaultRandom()` freshness is the `Wf` well-formedness predicate).
- `defaultNow()` / `$onUpdate(() => new Date())` read the database clock
  `now`.
- A thrown `new Error("Workout not found or unauthorized")` is
  `Except.error DataError.notFoundOrUnauthorized`.
- Postgres `decimal` columns that no claim touches (weightKg, rpe) are kept
  as scaled integers.
-/

/-- Milliseconds per day. -/
def msPerDay : Int := 86400000

/-- `new Date(d).setHours(0, 0, 0, 0)` in a timezone `tz` (local = UTC + tz):
the UTC instant of local midnight of the local calendar day containing `d`. -/
def startOfDay (tz d : Int) : Int := d - (d + tz).emod msPerDay

/-- `new Date(d).setHours(23, 59, 59, 999)`: the last millisecond of the
local calendar day containing `d`. -/
def endOfDay (tz d : Int) : Int := startOfDay tz d + (msPerDay - 1)

/-- A row of the `workouts` table (src/db/schema.ts). -/
structure WorkoutRow where
  id : Nat
  userId : Nat
  name : String
  date : Int
  notes : Option String
  durationMinutes : Option Int
  createdAt : Int
  updatedAt : Int
deriving DecidableEq, Repr

/-- A row of the `exercises` table (src/db/schema.ts). -/
structure ExerciseRow where
  id : Nat
  workoutId : Nat
  templateId : Option Nat
  exerciseName : String
  exerciseType : Option String
  orderInWorkout : Int
  notes : Option String
  createdAt : Int
  updatedAt : Int
deriving DecidableEq, Repr

/-- A row of the `sets` table (src/db/schema.ts); `weightKg` is in hundredths
of a kilogram and `rpe` in tenths, standing in for the decimal columns. -/
structure SetRow where
  id : Nat
  exerciseId : Nat
  setNumber : Int
  reps : Int
  weightKg : Option Int
  rpe : Option Int
  restSeconds : Option Int
  isWarmup : Bool
  isFailure : Bool
  notes : Option String
  createdAt : Int
  updatedAt : Int
deriving DecidableEq, Repr

/-- The database state: the three workout-scoped tables, the id counter and
the clock. -/
structure DB where
  workouts : List WorkoutRow
  exercises : List ExerciseRow
  sets : List SetRow
  nextId : Nat
  now : Int
deriving DecidableEq, Repr

/-- Well-formedness: ids already handed out are below the counter, workout
ids are unique (primary key), and exercise rows only reference ids the
database has handed out. -/
def DB.Wf (db : DB) : Prop :=
  (∀ w ∈ db.workouts, w.id < db.nextId) ∧
  (db.workouts.map (·.id)).Nodup ∧
  (∀ e ∈ db.exercises, e.workoutId < db.nextId)

instance (db : DB) : Decidable db.Wf := by
  unfold DB.Wf; infer_instance

/-- The errors the workout helpers can raise:
`new Error("Workout not found or unauthorized")` thrown at both the missing
and the foreign-owner site, and drizzle's `Error("No values to set")` thrown
by `.set` when every supplied entry is `undefined`. -/
inductive DataError where
  | notFoundOrUnauthorized
  | noValuesToSet
deriving DecidableEq, Repr

/-- An exercise together with its sets, as returned by the relational
queries' `with: { sets: ... }` clause. -/
structure ExerciseWithSets where
  exercise : ExerciseRow
  sets : List SetRow
deriving DecidableEq, Repr

/-- A workout together with its exercises and their sets, as returned by the
relational queries' `with: { exercises: { with: { sets } } }` clause. -/
structure WorkoutWithData where
  workout : WorkoutRow
  exercises : List ExerciseWithSets
deriving DecidableEq, Repr

/-- `orderBy: asc(sets.setNumber)` applied to the sets of one exercise. -/
def setsForExercise (db : DB) (exerciseId : Nat) : List SetRow :=
  List.insertionSort (fun a b => a.setNumber ≤ b.setNumber)
    (db.sets.filter (fun s => s.exerciseId == exerciseId))

/-- `orderBy: asc(exercises.orderInWorkout)` applied to the exercises of one
workout, each loaded with its sets. -/
def exercisesForWorkout (db : DB) (workoutId : Nat) : List ExerciseWithSets :=
  (List.insertionSort (fun a b => a.orderInWorkout ≤ b.orderInWorkout)
      (db.exercises.filter (fun e => e.workoutId == workoutId))).map
    (fun e => ⟨e, setsForExercise db e.id⟩)

/-- `getWorkoutsForUserByDate(userId, date)` (src/data/workouts.ts:12-41):
filter by `userId` and `startOfDay ≤ date ≤ endOfDay`, order by
`desc(createdAt)`, load exercises and sets. -/
def getWorkoutsForUserByDate (userId : Nat) (date : Int) (tz : Int)
    (db : DB) : List WorkoutWithData :=
  let s := startOfDay tz date
  let e := endOfDay tz date
  (List.insertionSort (fun a b => b.createdAt ≤ a.createdAt)
      (db.workouts.filter
        (fun w => w.userId == userId && decide (s ≤ w.date) &&
          decide (w.date ≤ e)))).map
    (fun w => ⟨w, exercisesForWorkout db w.id⟩)

/-- `getWorkoutById(workoutId, userId)` (src/data/workouts.ts:47-70):
`findFirst` on the `(id, userId)` pair, throwing
"Workout not found or unauthorized" when no row matches. -/
def getWorkoutById (workoutId userId : Nat) (db : DB) :
    Except DataError WorkoutWithData :=
  match db.workouts.find? (fun w => w.id == workoutId && w.userId == userId) with
  | none => .error .notFoundOrUnauthorized
  | some w => .ok ⟨w, exercisesForWorkout db w.id⟩

/-- The `data` parameter of `createWorkout`
(`{ name, date, notes?, durationMinutes? }`); it has no `userId` field. -/
structure CreateData where
  name : String
  date : Int
  notes : Option String
  durationMinutes : Option Int
deriving DecidableEq, Repr

/-- `createWorkout(userId, data)` (src/data/workouts.ts:99-120): insert a row
whose `userId` is the first parameter, with `id` from `defaultRandom()`
(fresh counter) and both timestamps from `defaultNow()`. -/
def createWorkout (userId : Nat) (data : CreateData) (db : DB) :
    WorkoutRow × DB :=
  let row : WorkoutRow :=
    { id := db.nextId
      userId := userId
      name := data.name
      date := data.date
      notes := data.notes
      durationMinutes := data.durationMinutes
      createdAt := db.now
      updatedAt := db.now }
  (row, { db with workouts := db.workouts ++ [row], nextId := db.nextId + 1 })

/-- The partial-update `data` parameter of `updateWorkout`; `none` models a
field left `undefined`, which drizzle's `.set` skips. -/
structure UpdateData where
  name : Option String
  date : Option Int
  notes : Option String
  durationMinutes : Option Int
deriving DecidableEq, Repr

/-- `.set(data)` on one row: supplied fields overwrite, `undefined` fields
are skipped, and `$onUpdate` stamps `updatedAt` with the clock. -/
def applyUpdate (data : UpdateData) (now : Int) (w : WorkoutRow) : WorkoutRow :=
  { w with
    name := data.name.getD w.name
    date := data.date.getD w.date
    notes := match data.notes with
      | some n => some n
      | none => w.notes
    durationMinutes := match data.durationMinutes with
      | some m => some m
      | none => w.durationMinutes
    updatedAt := now }

/-- `updateWorkout(workoutId, userId, data)` (src/data/workouts.ts:126-151):
first re-verify ownership via `getWorkoutById`, then run
`db.update(workouts).set(data)` under the predicate
`id = workoutId AND userId = userId` and return the updated row.  Drizzle's
`.set` drops `undefined` entries and throws `Error("No values to set")` when
none remain, so an all-`none` `data` fails after the ownership check with no
write and no `updatedAt` stamp.  (The inner `none` branch is unreachable:
the ownership check just found a matching row.) -/
def updateWorkout (workoutId userId : Nat) (data : UpdateData) (db : DB) :
    Except DataError (WorkoutRow × DB) :=
  match getWorkoutById workoutId userId db with
  | .error e => .error e
  | .ok _ =>
    if data.name.isNone && data.date.isNone && data.notes.isNone &&
        data.durationMinutes.isNone then
      .error .noValuesToSet
    else
      let updated := db.workouts.map
        (fun w => if w.id == workoutId && w.userId == userId then
          applyUpdate data db.now w else w)
      match updated.find? (fun w => w.id == workoutId && w.userId == userId) with
      | none => .error .notFoundOrUnauthorized
      | some r => .ok (r, { db with workouts := updated })

/-- `deleteWorkout(workoutId, userId)` (src/data/workouts.ts:157-173): delete
under the predicate `id = workoutId AND userId = userId`; throw when nothing
was deleted.  The removal of the deleted workouts' exercises and of those
exercises' sets is the schema's ON DELETE CASCADE (src/db/schema.ts), not
helper code. -/
def deleteWorkout (workoutId userId : Nat) (db : DB) :
    Except DataError (WorkoutRow × DB) :=
  let deleted := db.workouts.filter
    (fun w => w.id == workoutId && w.userId == userId)
  match deleted with
  | [] => .error .notFoundOrUnauthorized
  | d :: _ =>
    let deletedWorkoutIds := deleted.map (·.id)
    let cascadedExerciseIds := (db.exercises.filter
      (fun e => deletedWorkoutIds.contains e.workoutId)).map (·.id)
    .ok (d,
      { db with
        workouts := db.workouts.filter
          (fun w => !(w.id == workoutId && w.userId == userId))
        exercises := db.exercises.filter
          (fun e => !(deletedWorkoutIds.contains e.workoutId))
        sets := db.sets.filter
          (fun s => !(cascadedExerciseIds.contains s.exerciseId)) })

/-- One Zod issue: a field path and a message. -/
structure FieldIssue where
  path : String
  message : String
deriving DecidableEq, Repr

/-- The raw payload of `createWorkoutAction`.  `date` is `none` when the
value does not coerce to a valid date; `userId` models an extraneous key an
attacker may add to the JS payload — Zod's default object mode strips it and
no code ever reads it. -/
structure RawCreateInput where
  name : String
  date : Option Int
  notes : Option String
  durationMinutes : Option Int
  userId : Option Nat
deriving DecidableEq, Repr

/-- The issues raised by `createWorkoutSchema`
(src/app/dashboard/workout/[workoutId]/page.tsx:41-46):
`name: z.string().min(1, "Name is required").max(255)`,
`date: z.coerce.date()`, `notes: z.string().max(1000).optional()`,
`durationMinutes: z.number().int().min(1).max(600).optional()`.
(Integrality of `durationMinutes` is carried by the `Int` type.) -/
def createWorkoutIssues (input : RawCreateInput) : List FieldIssue :=
  (if input.name.length < 1 then
    [⟨"name", "Name is required"⟩] else []) ++
  (if input.name.length > 255 then
    [⟨"name", "String must contain at most 255 character(s)"⟩] else []) ++
  (match input.date with
    | none => [⟨"date", "Invalid date"⟩]
    | some _ => []) ++
  (match input.notes with
    | some n => if n.length > 1000 then
        [⟨"notes", "String must contain at most 1000 character(s)"⟩] else []
    | none => []) ++
  (match input.durationMinutes with
    | some m =>
      (if m < 1 then
        [⟨"durationMinutes", "Number must be greater than or equal to 1"⟩]
       else []) ++
      (if m > 600 then
        [⟨"durationMinutes", "Number must be less than or equal to 600"⟩]
       else [])
    | none => [])

/-- `createWorkoutSchema.parse(input)`: throws the collected issues, or
returns the validated data with the unknown `userId` key stripped.  (The
inner `none` branch is unreachable: an uncoercible date already raised an
issue.) -/
def createWorkoutSchemaParse (input : RawCreateInput) :
    Except (List FieldIssue) CreateData :=
  let issues := createWorkoutIssues input
  if issues.isEmpty then
    match input.date with
    | some d =>
      .ok { name := input.name, date := d, notes := input.notes,
            durationMinutes := input.durationMinutes }
    | none => .error [⟨"date", "Invalid date"⟩]
  else
    .error issues

/-- The authenticated user resolved by `getCurrentUser()` (the auth stub in
`@/lib/auth`); the actions only use its `id`. -/
structure AuthUser where
  id : Nat
deriving DecidableEq, Repr

/-- The ambient state a server action runs in: the database and the user the
auth layer would resolve. -/
structure Env where
  db : DB
  currentUser : AuthUser
deriving DecidableEq, Repr

/-- Observable side steps of an action, in order: resolving the current
user via `getCurrentUser()`, and issuing a database write. -/
inductive ActionStep where
  | resolveCurrentUser
  | databaseWrite
deriving DecidableEq, Repr

/-- What a server action can fail with: a Zod error (thrown by `.parse`
before any database work) or a data-layer error. -/
inductive ActionError where
  | validationFailure (issues : List FieldIssue)
  | dataFailure (e : DataError)
deriving DecidableEq, Repr

/-- `createWorkoutAction(input)`
(src/app/dashboard/workout/[workoutId]/page.tsx:48-67): (1) Zod-validate,
(2) `getCurrentUser()`, (3) `createWorkout(user.id, validated)`.  Returns
the result, the database afterwards, and the steps taken. -/
def createWorkoutAction (input : RawCreateInput) (env : Env) :
    Except ActionError WorkoutRow × DB × List ActionStep :=
  match createWorkoutSchemaParse input with
  | .error issues => (.error (.validationFailure issues), env.db, [])
  | .ok validated =>
    let user := env.currentUser
    let (workout, db2) := createWorkout user.id validated env.db
    (.ok workout, db2, [.resolveCurrentUser, .databaseWrite])

/-- A `number | null | undefined` field of the raw update payload. -/
inductive NullableInt where
  | absent
  | null
  | val (n : Int)
deriving DecidableEq, Repr

/-- The raw payload of `updateWorkoutAction`.  `durationMinutes` is
`.optional().nullable()`; the workout id is kept as an already well-formed
uuid (the `z.string().uuid()` check is out of the claims' scope). -/
structure RawUpdateInput where
  workoutId : Nat
  name : Option String
  date : Option Int
  notes : Option String
  durationMinutes : NullableInt
deriving DecidableEq, Repr

/-- The issues raised by `updateWorkoutSchema`
(src/app/dashboard/page.tsx:9-15): same field bounds as create, all fields
optional, `durationMinutes` additionally nullable. -/
def updateWorkoutIssues (input : RawUpdateInput) : List FieldIssue :=
  (match input.name with
    | some n =>
      (if n.length < 1 then [⟨"name", "Name is required"⟩] else []) ++
      (if n.length > 255 then
        [⟨"name", "String must contain at most 255 character(s)"⟩] else [])
    | none => []) ++
  (match input.notes with
    | some n => if n.length > 1000 then
        [⟨"notes", "String must contain at most 1000 character(s)"⟩] else []
    | none => []) ++
  (match input.durationMinutes with
    | .val m =>
      (if m < 1 then
        [⟨"durationMinutes", "Number must be greater than or equal to 1"⟩]
       else []) ++
      (if m > 600 then
        [⟨"durationMinutes", "Number must be less than or equal to 600"⟩]
       else [])
    | _ => [])

/-- `updateWorkoutAction(input)` (src/app/dashboard/page.tsx:17-47):
(1) Zod-validate, (2) `getCurrentUser()`, (3) split off `workoutId`, map a
null `durationMinutes` to undefined (`updateData.durationMinutes ??
undefined`), (4) `updateWorkout(workoutId, user.id, cleanedData)`. -/
def updateWorkoutAction (input : RawUpdateInput) (env : Env) :
    Except ActionError WorkoutRow × DB × List ActionStep :=
  match updateWorkoutIssues input with
  | issue :: rest => (.error (.validationFailure (issue :: rest)), env.db, [])
  | [] =>
    let user := env.currentUser
    let cleanedData : UpdateData :=
      { name := input.name
        date := input.date
        notes := input.notes
        durationMinutes := match input.durationMinutes with
          | .val n => some n
          | _ => none }
    match updateWorkout input.workoutId user.id cleanedData env.db with
    | .error e => (.error (.dataFailure e), env.db, [.resolveCurrentUser])
    | .ok (workout, db2) =>
      (.ok workout, db2, [.resolveCurrentUser, .databaseWrite])

/-! ### Shared lemmas about the helpers -/

/-- When no row matches the `(id, userId)` pair, the scan finds nothing. -/
theorem find_ownership_none (l : List WorkoutRow) (wid u : Nat)
    (h : ∀ w ∈ l, ¬(w.id = wid ∧ w.userId = u)) :
    l.find? (fun w => w.id == wid && w.userId == u) = none := by
  rw [List.find?_eq_none]
  intro w hw hp
  exact h w hw (by simpa using hp)

/-- `getWorkoutById` throws exactly when no row matches the pair. -/
theorem getWorkoutById_noMatch (db : DB) (wid u : Nat)
    (h : ∀ w ∈ db.workouts, ¬(w.id = wid ∧ w.userId = u)) :
    getWorkoutById wid u db = .error .notFoundOrUnauthorized := by
  unfold getWorkoutById
  rw [find_ownership_none _ _ _ h]

/-- `updateWorkout` throws when no row matches the pair. -/
theorem updateWorkout_noMatch (db : DB) (wid u : Nat) (d : UpdateData)
    (h : ∀ w ∈ db.workouts, ¬(w.id = wid ∧ w.userId = u)) :
    updateWorkout wid u d db = .error .notFoundOrUnauthorized := by
  unfold updateWorkout
  rw [getWorkoutById_noMatch db wid u h]

/-- `deleteWorkout` throws when no row matches the pair. -/
theorem deleteWorkout_noMatch (db : DB) (wid u : Nat)
    (h : ∀ w ∈ db.workouts, ¬(w.id = wid ∧ w.userId = u)) :
    deleteWorkout wid u db = .error .notFoundOrUnauthorized := by
  unfold deleteWorkout
  have hf : db.workouts.filter (fun w => w.id == wid && w.userId == u) = [] := by
    rw [List.filter_eq_nil_iff]
    intro w hw hp
    exact h w hw (by simpa using hp)
  rw [hf]

/-- In a well-formed database a workout owned by one user matches the
`(id, userId)` pair of no other user. -/
theorem owned_noMatch (db : DB) (W : WorkoutRow) (u2 : Nat)
    (hN : (db.workouts.map (·.id)).Nodup) (hW : W ∈ db.workouts)
    (hne : W.userId ≠ u2) :
    ∀ w ∈ db.workouts, ¬(w.id = W.id ∧ w.userId = u2) := by
  rintro w hw ⟨hid, hu⟩
  have : w = W := List.inj_on_of_nodup_map hN hw hW hid
  exact hne (this ▸ hu)

/-! ### Claims -/

/-- C1: for users U1 ≠ U2 and a workout W owned by U1, `getWorkoutById`,
`updateWorkout` and `deleteWorkout` called with U2's id all fail with the
NotFoundOrUnauthorized error, and that error is the very value produced when
the requested workout id does not exist at all, so "not found" and "owned by
someone else" are indistinguishable to the caller. -/
theorem cross_user_access_indistinguishable (db : DB) (W : WorkoutRow)
    (u1 u2 : Nat) (hWf : db.Wf) (hW : W ∈ db.workouts)
    (hOwn : W.userId = u1) (hne : u1 ≠ u2) :
    getWorkoutById W.id u2 db = .error .notFoundOrUnauthorized ∧
    (∀ d : UpdateData,
      updateWorkout W.id u2 d db = .error .notFoundOrUnauthorized) ∧
    deleteWorkout W.id u2 db = .error .notFoundOrUnauthorized ∧
    (∀ wid u, (∀ w ∈ db.workouts, w.id ≠ wid) →
      getWorkoutById wid u db = .error .notFoundOrUnauthorized) := by
  have hNodup := hWf.2.1
  have hno : ∀ w ∈ db.workouts, ¬(w.id = W.id ∧ w.userId = u2) :=
    owned_noMatch db W u2 hNodup hW (by rw [hOwn]; exact hne)
  refine ⟨getWorkoutById_noMatch db W.id u2 hno,
    fun d => updateWorkout_noMatch db W.id u2 d hno,
    deleteWorkout_noMatch db W.id u2 hno,
    fun wid u habs => getWorkoutById_noMatch db wid u ?_⟩
  rintro w hw ⟨hid, _⟩
  exact habs w hw hid

/-- A concrete workout row used by the witnesses. -/
def exWorkout : WorkoutRow :=
  { id := 1, userId := 1, name := "Leg Day", date := 86400000,
    notes := none, durationMinutes := some 60, createdAt := 5, updatedAt := 5 }

/-- A concrete database used by the witnesses. -/
def exDb : DB :=
  { workouts := [exWorkout], exercises := [], sets := [], nextId := 2,
    now := 100 }

/-- C1 witness: user 2 probing user 1's workout, and a nonexistent id,
both hit the same error. -/
theorem cross_user_access_indistinguishable_witness :
    getWorkoutById 1 2 exDb = .error .notFoundOrUnauthorized ∧
    updateWorkout 1 2 ⟨some "x", none, none, none⟩ exDb
      = .error .notFoundOrUnauthorized ∧
    deleteWorkout 1 2 exDb = .error .notFoundOrUnauthorized ∧
    getWorkoutById 99 1 exDb = .error .notFoundOrUnauthorized := by
  obtain ⟨h1, h2, h3, h4⟩ :=
    cross_user_access_indistinguishable exDb exWorkout 1 2 (by decide)
      (by decide) (by decide) (by decide)
  exact ⟨h1, h2 _, h3, h4 99 1 (by decide)⟩

instance {ε α : Type} [DecidableEq ε] [DecidableEq α] :
    DecidableEq (Except ε α) := fun a b => by
  cases a with
  | error x =>
    cases b with
    | error y => exact decidable_of_iff (x = y) (by simp)
    | ok y => exact isFalse (by simp)
  | ok x =>
    cases b with
    | error y => exact isFalse (by simp)
    | ok y => exact decidable_of_iff (x = y) (by simp)

/-- The boolean write guard of `updateWorkout` is the `(id, userId)`
ownership condition. -/
theorem updateGuard_eq (wid u : Nat) (d : UpdateData) (now : Int) :
    (fun w : WorkoutRow =>
      if w.id == wid && w.userId == u then applyUpdate d now w else w)
    = (fun w : WorkoutRow =>
      if w.id = wid ∧ w.userId = u then applyUpdate d now w else w) := by
  funext w
  by_cases h : w.id = wid ∧ w.userId = u
  · obtain ⟨h1, h2⟩ := h
    simp [h1, h2]
  · have hb : ¬((w.id == wid && w.userId == u) = true) := by simpa using h
    rw [if_neg hb, if_neg h]

/-- Shape of a successful `updateWorkout`: the new table is the guarded map
and the returned row is the first row matching the pair afterwards. -/
theorem updateWorkout_ok_elim (wid u : Nat) (d : UpdateData) (db : DB)
    (r : WorkoutRow) (db' : DB) (h : updateWorkout wid u d db = .ok (r, db')) :
    db'.workouts = db.workouts.map
      (fun w => if w.id == wid && w.userId == u then applyUpdate d db.now w else w) ∧
    db'.exercises = db.exercises ∧ db'.sets = db.sets ∧
    (db.workouts.map
      (fun w => if w.id == wid && w.userId == u then applyUpdate d db.now w else w)).find?
        (fun w => w.id == wid && w.userId == u) = some r := by
  unfold updateWorkout at h
  split at h
  · exact absurd h (by simp)
  · dsimp only at h
    split at h
    · exact absurd h (by simp)
    · split at h
      · exact absurd h (by simp)
      · rename_i hfind
        obtain ⟨h1, h2⟩ := Prod.mk.injEq .. ▸ (Except.ok.injEq .. ▸ h)
        subst h1
        exact ⟨by rw [← h2], by rw [← h2], by rw [← h2], hfind⟩

/-- A successful `updateWorkout` updated an existing row matching the
`(id, userId)` pair. -/
theorem updateWorkout_ok_source (wid u : Nat) (d : UpdateData) (db : DB)
    (r : WorkoutRow) (db' : DB) (h : updateWorkout wid u d db = .ok (r, db')) :
    ∃ w ∈ db.workouts, (w.id = wid ∧ w.userId = u) ∧
      r = applyUpdate d db.now w := by
  obtain ⟨-, -, -, hfind⟩ := updateWorkout_ok_elim wid u d db r db' h
  have hr := List.find?_some hfind
  obtain ⟨w, hw, hfw⟩ := List.mem_map.1 (List.mem_of_find?_eq_some hfind)
  by_cases hg : (w.id == wid && w.userId == u) = true
  · rw [if_pos hg] at hfw
    exact ⟨w, hw, by simpa using hg, hfw.symm⟩
  · rw [if_neg hg] at hfw
    rw [← hfw] at hr
    exact absurd hr hg

/-- C4: `updateWorkout` re-verifies that a row matches `(workoutId, userId)`
immediately before the write and fails with the NotFoundOrUnauthorized error
(the state is only replaced on success, so every stored row stays unchanged)
when no row matches; a successful write rewrites the table under the
ownership predicate itself, so rows not matching the pair survive
unchanged. -/
theorem updateWorkout_ownership_recheck (wid u : Nat) (d : UpdateData)
    (db : DB) :
    ((∀ w ∈ db.workouts, ¬(w.id = wid ∧ w.userId = u)) →
      updateWorkout wid u d db = .error .notFoundOrUnauthorized) ∧
    (∀ e, getWorkoutById wid u db = .error e →
      updateWorkout wid u d db = .error e) ∧
    (∀ r db', updateWorkout wid u d db = .ok (r, db') →
      db'.workouts = db.workouts.map
        (fun w => if w.id = wid ∧ w.userId = u then applyUpdate d db.now w else w) ∧
      db'.exercises = db.exercises ∧ db'.sets = db.sets ∧
      (∀ w ∈ db.workouts, ¬(w.id = wid ∧ w.userId = u) → w ∈ db'.workouts)) := by
  refine ⟨updateWorkout_noMatch db wid u d, ?_, ?_⟩
  · intro e he
    unfold updateWorkout
    rw [he]
  · intro r db' h
    obtain ⟨h1, h2, h3, -⟩ := updateWorkout_ok_elim wid u d db r db' h
    refine ⟨by rw [h1, updateGuard_eq], h2, h3, ?_⟩
    intro w hw hno
    rw [h1]
    refine List.mem_map.2 ⟨w, hw, ?_⟩
    have hb : ¬((w.id == wid && w.userId == u) = true) := by simpa using hno
    rw [if_neg hb]

/-- The result of updating `exWorkout`'s duration to 30 in `exDb`. -/
def exUpdatedWorkout : WorkoutRow :=
  { id := 1, userId := 1, name := "Leg Day", date := 86400000,
    notes := none, durationMinutes := some 30, createdAt := 5,
    updatedAt := 100 }

/-- `exDb` after that update. -/
def exDbUpdated : DB :=
  { workouts := [exUpdatedWorkout], exercises := [], sets := [], nextId := 2,
    now := 100 }

/-- C4 witness: an update under a wrong user fails, and a successful update
keeps the other tables and rewrites workouts under the ownership guard. -/
theorem updateWorkout_ownership_recheck_witness :
    updateWorkout 1 2 ⟨none, none, none, some 30⟩ exDb
      = .error .notFoundOrUnauthorized ∧
    exDbUpdated.exercises = exDb.exercises ∧ exDbUpdated.sets = exDb.sets :=
  ⟨(updateWorkout_ownership_recheck 1 2 ⟨none, none, none, some 30⟩ exDb).1
      (by decide),
    ((updateWorkout_ownership_recheck 1 1 ⟨none, none, none, some 30⟩ exDb).2.2
      exUpdatedWorkout exDbUpdated (by decide)).2.1,
    ((updateWorkout_ownership_recheck 1 1 ⟨none, none, none, some 30⟩ exDb).2.2
      exUpdatedWorkout exDbUpdated (by decide)).2.2.1⟩

/-- C7: a successful workout update changes only the supplied fields plus
`updatedAt`: the returned row keeps the prior row's `id`, `userId` and
`createdAt`, each unsupplied field keeps its prior value, and `updatedAt` is
stamped from the database clock; on creation both timestamps come from the
clock.  Neither `CreateData` nor `UpdateData` has a timestamp field, so
timestamps can never be client-supplied on either path. -/
theorem update_changes_only_supplied_fields (wid u : Nat) (d : UpdateData)
    (db : DB) (r : WorkoutRow) (db' : DB)
    (h : updateWorkout wid u d db = .ok (r, db')) :
    (∃ w ∈ db.workouts, (w.id = wid ∧ w.userId = u) ∧
      r.id = w.id ∧ r.userId = w.userId ∧ r.createdAt = w.createdAt ∧
      r.name = d.name.getD w.name ∧ r.date = d.date.getD w.date ∧
      r.notes = (match d.notes with
        | some n => some n
        | none => w.notes) ∧
      r.durationMinutes = (match d.durationMinutes with
        | some m => some m
        | none => w.durationMinutes) ∧
      r.updatedAt = db.now) ∧
    (∀ w ∈ db.workouts, ¬(w.id = wid ∧ w.userId = u) → w ∈ db'.workouts) ∧
    (∀ uid data db0, (createWorkout uid data db0).1.createdAt = db0.now ∧
      (createWorkout uid data db0).1.updatedAt = db0.now) := by
  obtain ⟨w, hw, hmatch, hr⟩ := updateWorkout_ok_source wid u d db r db' h
  obtain ⟨h1, -, -, -⟩ := updateWorkout_ok_elim wid u d db r db' h
  refine ⟨⟨w, hw, hmatch, ?_, ?_, ?_, ?_, ?_, ?_, ?_, ?_⟩, ?_, ?_⟩
  · rw [hr]; rfl
  · rw [hr]; rfl
  · rw [hr]; rfl
  · rw [hr]; rfl
  · rw [hr]; rfl
  · rw [hr]; rfl
  · rw [hr]; rfl
  · rw [hr]; rfl
  · intro w' hw' hno
    rw [h1]
    refine List.mem_map.2 ⟨w', hw', ?_⟩
    have hb : ¬((w'.id == wid && w'.userId == u) = true) := by simpa using hno
    rw [if_neg hb]
  · intro uid data db0
    exact ⟨rfl, rfl⟩

/-- C7 witness: updating only the duration in `exDb` leaves `createdAt`
intact and stamps `updatedAt`, and creation stamps both timestamps from the
clock. -/
theorem update_changes_only_supplied_fields_witness :
    (createWorkout 7 ⟨"A", 0, none, none⟩ exDb).1.createdAt = exDb.now ∧
    (createWorkout 7 ⟨"A", 0, none, none⟩ exDb).1.updatedAt = exDb.now :=
  (update_changes_only_supplied_fields 1 1 ⟨none, none, none, some 30⟩ exDb
    exUpdatedWorkout exDbUpdated (by decide)).2.2 7 ⟨"A", 0, none, none⟩ exDb

/-- C8: creating a workout and immediately fetching it by id as the same
user returns exactly the created row with an empty exercises list, and the
created row's scalar fields equal the input (`date` is stored at full
millisecond precision, so it is returned unchanged). -/
theorem create_then_get_roundtrip (u : Nat) (data : CreateData) (db : DB)
    (hWf : db.Wf) :
    getWorkoutById (createWorkout u data db).1.id u (createWorkout u data db).2
      = .ok ⟨(createWorkout u data db).1, []⟩ ∧
    (createWorkout u data db).1.name = data.name ∧
    (createWorkout u data db).1.date = data.date ∧
    (createWorkout u data db).1.notes = data.notes ∧
    (createWorkout u data db).1.durationMinutes = data.durationMinutes := by
  refine ⟨?_, rfl, rfl, rfl, rfl⟩
  have hidlt := hWf.1
  have hexlt := hWf.2.2
  unfold getWorkoutById createWorkout
  have hnone : db.workouts.find?
      (fun w => w.id == db.nextId && w.userId == u) = none := by
    rw [List.find?_eq_none]
    intro w hw hp
    have : w.id = db.nextId := by
      have := Bool.and_elim_left hp
      simpa using this
    exact absurd this (Nat.ne_of_lt (hidlt w hw))
  simp only [List.find?_append, hnone, Option.none_or]
  have hself : (db.nextId == db.nextId && u == u) = true := by simp
  simp only [List.find?_cons, hself, List.find?_nil]
  have hex : exercisesForWorkout
      { db with
        workouts := db.workouts ++
          [⟨db.nextId, u, data.name, data.date, data.notes,
            data.durationMinutes, db.now, db.now⟩],
        nextId := db.nextId + 1 } db.nextId = [] := by
    unfold exercisesForWorkout
    have : db.exercises.filter (fun e => e.workoutId == db.nextId) = [] := by
      rw [List.filter_eq_nil_iff]
      intro e he hp
      exact absurd (by simpa using hp) (Nat.ne_of_lt (hexlt e he))
    rw [this]
    rfl
  rw [hex]

/-- C8 witness: round-trip on the concrete database. -/
theorem create_then_get_roundtrip_witness :
    getWorkoutById (createWorkout 1 ⟨"Push Day", 3600000, some "pump", some 45⟩ exDb).1.id 1
        (createWorkout 1 ⟨"Push Day", 3600000, some "pump", some 45⟩ exDb).2
      = .ok ⟨(createWorkout 1 ⟨"Push Day", 3600000, some "pump", some 45⟩ exDb).1, []⟩ ∧
    (createWorkout 1 ⟨"Push Day", 3600000, some "pump", some 45⟩ exDb).1.name
      = "Push Day" :=
  ⟨(create_then_get_roundtrip 1 ⟨"Push Day", 3600000, some "pump", some 45⟩
      exDb (by decide)).1,
    (create_then_get_roundtrip 1 ⟨"Push Day", 3600000, some "pump", some 45⟩
      exDb (by decide)).2.1⟩

/-- C6: a successful `deleteWorkout` removes the workout's row, every
exercise row referencing the deleted workout's id, and every set row
belonging to those exercises; the helper only issues the one delete on
`workouts` — the exercise and set removals are the schema's
ON DELETE CASCADE foreign keys (src/db/schema.ts:48-82). -/
theorem deleteWorkout_cascades (wid u : Nat) (db : DB) (r : WorkoutRow)
    (db' : DB) (h : deleteWorkout wid u db = .ok (r, db')) :
    r.id = wid ∧
    (∀ w ∈ db'.workouts, ¬(w.id = wid ∧ w.userId = u)) ∧
    (∀ e ∈ db'.exercises, e.workoutId ≠ wid) ∧
    (∀ s ∈ db'.sets, ∀ e ∈ db.exercises,
      e.workoutId = wid → s.exerciseId ≠ e.id) := by
  unfold deleteWorkout at h
  dsimp only at h
  split at h
  · exact absurd h (by simp)
  · rename_i d ds heq
    obtain ⟨h1, h2⟩ := Prod.mk.injEq .. ▸ (Except.ok.injEq .. ▸ h)
    subst h1
    have hd : d ∈ db.workouts.filter
        (fun w => w.id == wid && w.userId == u) := by
      rw [heq]; exact List.mem_cons_self d ds
    have hdp := (List.mem_filter.1 hd).2
    have hdid : d.id = wid := by simpa using Bool.and_elim_left hdp
    have hwidmem : wid ∈ (db.workouts.filter
        (fun w => w.id == wid && w.userId == u)).map (·.id) := by
      rw [heq]
      exact List.mem_map.2 ⟨d, List.mem_cons_self d ds, hdid⟩
    refine ⟨hdid, ?_, ?_, ?_⟩
    · intro w hw hcontra
      rw [← h2] at hw
      have hb := (List.mem_filter.1 hw).2
      rw [Bool.not_eq_true'] at hb
      have hb' : (w.id == wid && w.userId == u) = true := by
        simp [hcontra.1, hcontra.2]
      rw [hb'] at hb
      exact absurd hb (by simp)
    · intro e he
      rw [← h2] at he
      have hep := (List.mem_filter.1 he).2
      intro hew
      have hc : ((db.workouts.filter
          (fun w => w.id == wid && w.userId == u)).map (·.id)).contains
            e.workoutId = true := by
        rw [hew]
        exact List.elem_eq_true_of_mem hwidmem
      rw [hc] at hep
      exact absurd hep (by simp)
    · intro s hs e he hew hse
      rw [← h2] at hs
      have hsp := (List.mem_filter.1 hs).2
      have hemem : e ∈ db.exercises.filter
          (fun e => ((db.workouts.filter
            (fun w => w.id == wid && w.userId == u)).map (·.id)).contains
              e.workoutId) := by
        rw [List.mem_filter]
        refine ⟨he, ?_⟩
        rw [hew]
        exact List.elem_eq_true_of_mem hwidmem
      have hc : ((db.exercises.filter
          (fun e => ((db.workouts.filter
            (fun w => w.id == wid && w.userId == u)).map (·.id)).contains
              e.workoutId)).map (·.id)).contains s.exerciseId = true := by
        rw [hse]
        exact List.elem_eq_true_of_mem (List.mem_map.2 ⟨e, hemem, rfl⟩)
      rw [hc] at hsp
      exact absurd hsp (by simp)

/-- Two exercises of `exWorkout`. -/
def exExercise1 : ExerciseRow :=
  ⟨10, 1, none, "Squat", some "compound", 1, none, 5, 5⟩

/-- Second exercise of `exWorkout`. -/
def exExercise2 : ExerciseRow :=
  ⟨11, 1, none, "Bench", some "compound", 2, none, 6, 6⟩

/-- A database where `exWorkout` has two exercises with three sets each. -/
def exDbFull : DB :=
  { workouts := [exWorkout]
    exercises := [exExercise1, exExercise2]
    sets :=
      [⟨20, 10, 1, 8, some 6000, none, none, false, false, none, 5, 5⟩,
       ⟨21, 10, 2, 6, some 10000, none, none, false, false, none, 5, 5⟩,
       ⟨22, 10, 3, 5, some 12000, none, none, false, false, none, 5, 5⟩,
       ⟨23, 11, 1, 8, some 4000, none, none, false, false, none, 6, 6⟩,
       ⟨24, 11, 2, 6, some 6000, none, none, false, false, none, 6, 6⟩,
       ⟨25, 11, 3, 5, some 8000, none, none, false, false, none, 6, 6⟩]
    nextId := 30
    now := 100 }

/-- C6 witness: deleting the workout with two exercises of three sets each
empties all three tables. -/
theorem deleteWorkout_cascades_witness :
    deleteWorkout 1 1 exDbFull = .ok (exWorkout, ⟨[], [], [], 30, 100⟩) ∧
    exWorkout.id = 1 :=
  ⟨by decide,
    (deleteWorkout_cascades 1 1 exDbFull exWorkout ⟨[], [], [], 30, 100⟩
      (by decide)).1⟩

/-- C2: for every payload accepted by `createWorkoutAction`, the created
workout's `userId` is the authenticated caller's id resolved by
`getCurrentUser`, and the action's outcome is unchanged by whatever `userId`
value sits in the raw payload (Zod strips the unknown key and `CreateData`
has no `userId` field for `createWorkout` to read). -/
theorem createWorkout_userId_from_auth (input : RawCreateInput) (env : Env) :
    (∀ w, (createWorkoutAction input env).1 = .ok w →
      w.userId = env.currentUser.id) ∧
    (∀ uid, createWorkoutAction { input with userId := uid } env
      = createWorkoutAction input env) := by
  constructor
  · intro w hw
    unfold createWorkoutAction at hw
    split at hw
    · exact absurd hw (by simp)
    · dsimp only at hw
      have := Except.ok.injEq .. ▸ hw
      rw [← this]
      rfl
  · intro uid
    rfl

/-- C2 witness: a payload smuggling `userId := 999` still yields a workout
owned by the authenticated user 42. -/
theorem createWorkout_userId_from_auth_witness :
    ({ id := 2, userId := 42, name := "W", date := 0, notes := none,
       durationMinutes := none, createdAt := 100,
       updatedAt := 100 } : WorkoutRow).userId = 42 :=
  (createWorkout_userId_from_auth ⟨"W", some 0, none, none, some 999⟩
      ⟨exDb, ⟨42⟩⟩).1 _ (by decide)

/-- C5: `createWorkoutAction` validates before any database call: an empty
name makes `.parse` throw a validation error citing the `name` field, with
the database untouched and `getCurrentUser` never reached (empty step
trace); and the schema accepts exactly name 1-255 characters, a coercible
date, notes of at most 1000 characters, and an integer `durationMinutes`
between 1 and 600, the last two optional. -/
theorem createWorkoutAction_validates_first (input : RawCreateInput)
    (env : Env) :
    (input.name = "" →
      ∃ issues, createWorkoutAction input env
          = (.error (.validationFailure issues), env.db, []) ∧
        ∃ i ∈ issues, i.path = "name") ∧
    (createWorkoutIssues input = [] ↔
      (1 ≤ input.name.length ∧ input.name.length ≤ 255 ∧
       input.date ≠ none ∧
       (∀ n, input.notes = some n → n.length ≤ 1000) ∧
       (∀ m, input.durationMinutes = some m → 1 ≤ m ∧ m ≤ 600))) := by
  constructor
  · intro hname
    have hlen : input.name.length < 1 := by
      rw [hname]
      decide
    have hcons : ∃ rest, createWorkoutIssues input
        = ⟨"name", "Name is required"⟩ :: rest := by
      unfold createWorkoutIssues
      rw [if_pos hlen]
      exact ⟨_, rfl⟩
    obtain ⟨rest, hrest⟩ := hcons
    refine ⟨⟨"name", "Name is required"⟩ :: rest, ?_,
      ⟨"name", "Name is required"⟩, List.mem_cons_self _ _, rfl⟩
    unfold createWorkoutAction createWorkoutSchemaParse
    dsimp only
    rw [hrest]
    rfl
  · unfold createWorkoutIssues
    cases hd : input.date <;> cases hn : input.notes <;>
      cases hm : input.durationMinutes <;>
        simp [List.append_eq_nil, ite_eq_right_iff] <;>
          omega

/-- C5 witness: the concrete payload `{name := "", date := valid}` leaves
the database untouched, resolves no user, and a well-formed payload passes
the schema. -/
theorem createWorkoutAction_validates_first_witness :
    (createWorkoutAction ⟨"", some 0, none, none, none⟩ ⟨exDb, ⟨1⟩⟩).2.1
      = exDb ∧
    (createWorkoutAction ⟨"", some 0, none, none, none⟩ ⟨exDb, ⟨1⟩⟩).2.2
      = [] ∧
    createWorkoutIssues ⟨"Leg Day", some 5, none, some 300, none⟩ = [] := by
  obtain ⟨issues, heq, -⟩ :=
    (createWorkoutAction_validates_first ⟨"", some 0, none, none, none⟩
      ⟨exDb, ⟨1⟩⟩).1 rfl
  refine ⟨by rw [heq], by rw [heq], ?_⟩
  exact (createWorkoutAction_validates_first
    ⟨"Leg Day", some 5, none, some 300, none⟩ ⟨exDb, ⟨1⟩⟩).2.mpr (by decide)

/-- C9 (implicit): the data-access helper enforces none of the field
bounds — `createWorkout` inserts rows whose name is empty or whose duration
is 0 or 601 without complaint; those same values are rejected by the action
layer's Zod schema, which is the only place the 1-255 / at most 1000 /
1-600 bounds live. -/
theorem createWorkout_skips_validation (u : Nat) (db : DB) (d : Int) :
    (∀ data : CreateData,
      (createWorkout u data db).2.workouts
        = db.workouts ++ [(createWorkout u data db).1] ∧
      (createWorkout u data db).1.name = data.name ∧
      (createWorkout u data db).1.durationMinutes = data.durationMinutes) ∧
    (∃ issues, createWorkoutSchemaParse ⟨"", some d, none, some 0, none⟩
      = .error issues) ∧
    (∃ issues, createWorkoutSchemaParse ⟨"x", some d, none, some 601, none⟩
      = .error issues) := by
  refine ⟨fun data => ⟨rfl, rfl, rfl⟩,
    ⟨[⟨"name", "Name is required"⟩,
      ⟨"durationMinutes", "Number must be greater than or equal to 1"⟩], ?_⟩,
    ⟨[⟨"durationMinutes", "Number must be less than or equal to 600"⟩], ?_⟩⟩
  · rfl
  · rfl

/-- C9 witness: inserting an empty-named, zero-duration workout through the
helper really appends the row. -/
theorem createWorkout_skips_validation_witness :
    (createWorkout 1 ⟨"", 0, none, some 0⟩ exDb).2.workouts
      = exDb.workouts ++ [(createWorkout 1 ⟨"", 0, none, some 0⟩ exDb).1] :=
  ((createWorkout_skips_validation 1 exDb 0).1 ⟨"", 0, none, some 0⟩).1

/-- With unique ids, the guarded update-map of `updateWorkout` makes the
first row matching `(wid, u)` afterwards the updated image of the matching
source row. -/
theorem find?_update_map (l : List WorkoutRow) (wid u : Nat) (d : UpdateData)
    (now : Int) (hN : (l.map (·.id)).Nodup) (w : WorkoutRow) (hw : w ∈ l)
    (hid : w.id = wid) (hu : w.userId = u) :
    (l.map (fun x => if x.id == wid && x.userId == u
        then applyUpdate d now x else x)).find?
      (fun x => x.id == wid && x.userId == u) = some (applyUpdate d now w) := by
  induction l with
  | nil => cases hw
  | cons a l ih =>
    simp only [List.map_cons]
    have hN' : (l.map (·.id)).Nodup := (List.nodup_cons.1 hN).2
    have haid : a.id ∉ l.map (·.id) := (List.nodup_cons.1 hN).1
    by_cases hg : (a.id == wid && a.userId == u) = true
    · have haw : a = w := by
        rcases List.mem_cons.1 hw with h1 | h2
        · exact h1.symm
        · exfalso
          apply haid
          refine List.mem_map.2 ⟨w, h2, ?_⟩
          have : a.id = wid := by simpa using Bool.and_elim_left hg
          rw [hid, this]
      subst haw
      rw [if_pos hg, List.find?_cons]
      have hpa : ((applyUpdate d now a).id == wid
          && (applyUpdate d now a).userId == u) = true := hg
      rw [hpa]
    · have hwl : w ∈ l := by
        rcases List.mem_cons.1 hw with h1 | h2
        · exfalso
          apply hg
          rw [h1] at hid hu
          simp [hid, hu]
        · exact h2
      rw [if_neg hg, List.find?_cons]
      have hpa : (a.id == wid && a.userId == u) = false :=
        Bool.not_eq_true _ ▸ hg
      rw [hpa]
      exact ih hN' hwl

/-- The database state after `updateWorkout`'s guarded write. -/
def guardedUpdate (wid u : Nat) (d : UpdateData) (db : DB) : DB :=
  { db with
    workouts := db.workouts.map
      (fun x => if x.id == wid && x.userId == u
        then applyUpdate d db.now x else x) }

/-- C10 (implicit): `updateWorkoutAction` accepts `durationMinutes: null`
but `updateData.durationMinutes ?? undefined` turns the null into undefined
before calling `updateWorkout`, so the stored duration is never changed by a
null submission — the field cannot be cleared back to null through this
action.  When another field is supplied the write goes through, skips the
duration column and preserves the stored value; when the null is the only
field, drizzle's `.set` is left with no values and the action fails with
`No values to set`, leaving the database untouched. -/
theorem updateWorkoutAction_null_duration (input : RawUpdateInput)
    (env : Env) (w : WorkoutRow)
    (hdm : input.durationMinutes = .null)
    (hv : updateWorkoutIssues input = [])
    (hw : w ∈ env.db.workouts) (hid : w.id = input.workoutId)
    (hu : w.userId = env.currentUser.id)
    (hN : (env.db.workouts.map (·.id)).Nodup) :
    (∀ w' ∈ (updateWorkoutAction input env).2.1.workouts,
      w'.id = input.workoutId → w'.durationMinutes = w.durationMinutes) ∧
    (¬(input.name = none ∧ input.date = none ∧ input.notes = none) →
      ∃ r db', updateWorkoutAction input env
          = (.ok r, db', [.resolveCurrentUser, .databaseWrite]) ∧
        r.durationMinutes = w.durationMinutes) ∧
    (input.name = none ∧ input.date = none ∧ input.notes = none →
      updateWorkoutAction input env
        = (.error (.dataFailure .noValuesToSet), env.db,
            [.resolveCurrentUser])) := by
  have hfind : (env.db.workouts.find? (fun x => x.id == input.workoutId
      && x.userId == env.currentUser.id)).isSome := by
    rw [List.find?_isSome]
    exact ⟨w, hw, by simp [hid, hu]⟩
  obtain ⟨v, hv2⟩ := Option.isSome_iff_exists.1 hfind
  by_cases hall : input.name = none ∧ input.date = none ∧ input.notes = none
  · obtain ⟨h1, h2, h3⟩ := hall
    have hupd : updateWorkout input.workoutId env.currentUser.id
        ⟨none, none, none, none⟩ env.db = .error .noValuesToSet := by
      unfold updateWorkout getWorkoutById
      rw [hv2]
      rfl
    have haction : updateWorkoutAction input env
        = (.error (.dataFailure .noValuesToSet), env.db,
            [.resolveCurrentUser]) := by
      unfold updateWorkoutAction
      rw [hv]
      dsimp only
      rw [hdm]
      dsimp only
      rw [h1, h2, h3, hupd]
    refine ⟨?_, ?_, fun _ => haction⟩
    · intro w' hw' hwid
      rw [haction] at hw'
      dsimp only at hw'
      have hw'w : w' = w :=
        List.inj_on_of_nodup_map hN hw' hw (by rw [hwid, hid])
      rw [hw'w]
    · intro hne
      exact absurd ⟨h1, h2, h3⟩ hne
  · have hcond : ¬((input.name.isNone && input.date.isNone &&
        input.notes.isNone && (none : Option Int).isNone) = true) := by
      intro hc
      simp only [Bool.and_eq_true, Option.isNone_iff_eq_none] at hc
      exact hall ⟨hc.1.1.1, hc.1.1.2, hc.1.2⟩
    have hupd : updateWorkout input.workoutId env.currentUser.id
        ⟨input.name, input.date, input.notes, none⟩ env.db
        = .ok (applyUpdate ⟨input.name, input.date, input.notes, none⟩
            env.db.now w,
          guardedUpdate input.workoutId env.currentUser.id
            ⟨input.name, input.date, input.notes, none⟩ env.db) := by
      unfold updateWorkout getWorkoutById
      rw [hv2]
      dsimp only
      rw [if_neg hcond]
      rw [find?_update_map env.db.workouts input.workoutId env.currentUser.id
        ⟨input.name, input.date, input.notes, none⟩ env.db.now hN w hw hid hu]
      rfl
    have haction : updateWorkoutAction input env
        = (.ok (applyUpdate ⟨input.name, input.date, input.notes, none⟩
              env.db.now w),
          guardedUpdate input.workoutId env.currentUser.id
            ⟨input.name, input.date, input.notes, none⟩ env.db,
          [.resolveCurrentUser, .databaseWrite]) := by
      unfold updateWorkoutAction
      rw [hv]
      dsimp only
      rw [hdm]
      dsimp only
      rw [hupd]
    refine ⟨?_, fun _ => ⟨_, _, haction, rfl⟩, fun hall2 => absurd hall2 hall⟩
    intro w' hw' hwid
    rw [haction] at hw'
    dsimp only [guardedUpdate] at hw'
    obtain ⟨x, hx, hfx⟩ := List.mem_map.1 hw'
    by_cases hg : (x.id == input.workoutId
        && x.userId == env.currentUser.id) = true
    · have hxw : x = w := by
        apply List.inj_on_of_nodup_map hN hx hw
        have : x.id = input.workoutId := by simpa using Bool.and_elim_left hg
        rw [this, hid]
      rw [if_pos hg] at hfx
      rw [← hfx, hxw]
      rfl
    · rw [if_neg hg] at hfx
      exfalso
      apply hg
      have hxid : x.id = input.workoutId := by rw [← hfx] at hwid; exact hwid
      have hxw : x = w := by
        apply List.inj_on_of_nodup_map hN hx hw
        rw [hxid, hid]
      rw [hxw, hid, hu]
      simp

/-- C10 witness: a null-only submission for `exWorkout` fails with
`No values to set` and leaves the database untouched, while a rename
submitted together with `durationMinutes: null` succeeds and keeps the
stored 60-minute duration. -/
theorem updateWorkoutAction_null_duration_witness :
    updateWorkoutAction ⟨1, none, none, none, .null⟩ ⟨exDb, ⟨1⟩⟩
      = (.error (.dataFailure .noValuesToSet), exDb,
          [.resolveCurrentUser]) ∧
    (updateWorkoutAction ⟨1, some "Legs", none, none, .null⟩
        ⟨exDb, ⟨1⟩⟩).1
      = .ok { id := 1, userId := 1, name := "Legs", date := 86400000,
              notes := none, durationMinutes := some 60, createdAt := 5,
              updatedAt := 100 } :=
  ⟨(updateWorkoutAction_null_duration ⟨1, none, none, none, .null⟩
      ⟨exDb, ⟨1⟩⟩ exWorkout rfl (by decide) (by decide) (by decide)
      (by decide) (by decide)).2.2 ⟨rfl, rfl, rfl⟩,
    by decide⟩

/-- Sorting a list by an integer key ascending yields keys sorted
ascending. -/
theorem sorted_insertionSort_map_asc {α : Type} (key : α → Int)
    (l : List α) :
    List.Sorted (· ≤ ·)
      ((List.insertionSort (fun a b => key a ≤ key b) l).map key) := by
  haveI h1 : IsTotal α (fun a b => key a ≤ key b) := ⟨fun a b => le_total _ _⟩
  haveI h2 : IsTrans α (fun a b => key a ≤ key b) :=
    ⟨fun a b c hab hbc => le_trans hab hbc⟩
  have hs := List.sorted_insertionSort (fun a b => key a ≤ key b) l
  exact List.Pairwise.map key (fun a b h => h) hs

/-- Sorting a list by an integer key descending yields keys sorted
descending. -/
theorem sorted_insertionSort_map_desc {α : Type} (key : α → Int)
    (l : List α) :
    List.Sorted (fun a b : Int => b ≤ a)
      ((List.insertionSort (fun a b => key b ≤ key a) l).map key) := by
  haveI h1 : IsTotal α (fun a b => key b ≤ key a) := ⟨fun a b => le_total _ _⟩
  haveI h2 : IsTrans α (fun a b => key b ≤ key a) :=
    ⟨fun a b c hab hbc => le_trans hbc hab⟩
  have hs := List.sorted_insertionSort (fun a b => key b ≤ key a) l
  exact List.Pairwise.map key (fun a b h => h) hs

/-- `setsForExercise` returns exactly the exercise's sets, ascending by
`setNumber`. -/
theorem setsForExercise_spec (db : DB) (eid : Nat) :
    List.Sorted (· ≤ ·)
      ((setsForExercise db eid).map (fun s => s.setNumber)) ∧
    (∀ s : SetRow, s ∈ setsForExercise db eid ↔
      (s ∈ db.sets ∧ s.exerciseId = eid)) := by
  constructor
  · unfold setsForExercise
    exact sorted_insertionSort_map_asc (fun s : SetRow => s.setNumber) _
  · intro s
    unfold setsForExercise
    rw [List.mem_insertionSort, List.mem_filter]
    simp

/-- `exercisesForWorkout` returns exactly the workout's exercises,
ascending by `orderInWorkout`, each carrying its sets. -/
theorem exercisesForWorkout_spec (db : DB) (wid : Nat) :
    List.Sorted (· ≤ ·)
      ((exercisesForWorkout db wid).map
        (fun y => y.exercise.orderInWorkout)) ∧
    (∀ e : ExerciseRow, (∃ y ∈ exercisesForWorkout db wid, y.exercise = e) ↔
      (e ∈ db.exercises ∧ e.workoutId = wid)) ∧
    (∀ y ∈ exercisesForWorkout db wid,
      y.sets = setsForExercise db y.exercise.id) := by
  refine ⟨?_, ?_, ?_⟩
  · unfold exercisesForWorkout
    rw [List.map_map]
    exact sorted_insertionSort_map_asc (fun e : ExerciseRow => e.orderInWorkout) _
  · intro e
    unfold exercisesForWorkout
    constructor
    · rintro ⟨y, hy, hye⟩
      obtain ⟨e0, he0, hfe⟩ := List.mem_map.1 hy
      have he : e0 = e := by rw [← hye, ← hfe]
      subst he
      have hm := (List.mem_insertionSort _).1 he0
      rw [List.mem_filter] at hm
      exact ⟨hm.1, by simpa using hm.2⟩
    · rintro ⟨hmem, hwid⟩
      refine ⟨⟨e, setsForExercise db e.id⟩, ?_, rfl⟩
      apply List.mem_map.2
      refine ⟨e, ?_, rfl⟩
      rw [List.mem_insertionSort, List.mem_filter]
      exact ⟨hmem, by simp [hwid]⟩
  · intro y hy
    obtain ⟨e0, he0, hfe⟩ := List.mem_map.1 hy
    rw [← hfe]

/-- C3: `getWorkoutsForUserByDate` returns exactly the user's workouts whose
`date` lies in the local calendar day containing `date` — from the day's
first through its last millisecond inclusive, the queried instant itself
lying in that window — ordered most-recently-created first, exercises
ascending by `orderInWorkout` with exactly the workout's exercises, sets
ascending by `setNumber` with exactly the exercise's sets; it is a total
function returning `[]` (never an error) when nothing matches, a workout
dated at the day's last millisecond (23:59:59.999) is included, and one
dated one millisecond later (00:00:00.000 next day) is excluded. -/
theorem getWorkoutsForUserByDate_day_filter (u : Nat) (d tz : Int)
    (db : DB) :
    (∀ w : WorkoutRow,
      (∃ x ∈ getWorkoutsForUserByDate u d tz db, x.workout = w) ↔
      (w ∈ db.workouts ∧ w.userId = u ∧
        startOfDay tz d ≤ w.date ∧ w.date ≤ endOfDay tz d)) ∧
    (∀ x ∈ getWorkoutsForUserByDate u d tz db,
      List.Sorted (· ≤ ·)
        (x.exercises.map (fun y => y.exercise.orderInWorkout)) ∧
      (∀ e : ExerciseRow, (∃ y ∈ x.exercises, y.exercise = e) ↔
        (e ∈ db.exercises ∧ e.workoutId = x.workout.id)) ∧
      (∀ y ∈ x.exercises,
        List.Sorted (· ≤ ·) (y.sets.map (fun s => s.setNumber)) ∧
        (∀ s : SetRow, s ∈ y.sets ↔
          (s ∈ db.sets ∧ s.exerciseId = y.exercise.id)))) ∧
    List.Sorted (fun a b : Int => b ≤ a)
      ((getWorkoutsForUserByDate u d tz db).map
        (fun x => x.workout.createdAt)) ∧
    (startOfDay tz d ≤ d ∧ d ≤ endOfDay tz d) ∧
    ((∀ w ∈ db.workouts,
        ¬(w.userId = u ∧ startOfDay tz d ≤ w.date ∧
          w.date ≤ endOfDay tz d)) →
      getWorkoutsForUserByDate u d tz db = []) ∧
    (∀ w ∈ db.workouts, w.userId = u →
      (w.date = endOfDay tz d →
        ∃ x ∈ getWorkoutsForUserByDate u d tz db, x.workout = w) ∧
      (w.date = endOfDay tz d + 1 →
        ¬∃ x ∈ getWorkoutsForUserByDate u d tz db, x.workout = w)) := by
  have hmem : ∀ w : WorkoutRow,
      (∃ x ∈ getWorkoutsForUserByDate u d tz db, x.workout = w) ↔
      (w ∈ db.workouts ∧ w.userId = u ∧
        startOfDay tz d ≤ w.date ∧ w.date ≤ endOfDay tz d) := by
    intro w
    unfold getWorkoutsForUserByDate
    dsimp only
    constructor
    · rintro ⟨x, hx, hxw⟩
      obtain ⟨w0, hw0, hfw⟩ := List.mem_map.1 hx
      have hww : w0 = w := by rw [← hxw, ← hfw]
      subst hww
      have hmf := (List.mem_insertionSort _).1 hw0
      rw [List.mem_filter] at hmf
      refine ⟨hmf.1, ?_⟩
      have hb := hmf.2
      simp only [Bool.and_eq_true, beq_iff_eq, decide_eq_true_eq] at hb
      exact ⟨hb.1.1, hb.1.2, hb.2⟩
    · rintro ⟨hmem0, hu0, hle1, hle2⟩
      refine ⟨⟨w, exercisesForWorkout db w.id⟩, ?_, rfl⟩
      apply List.mem_map.2
      refine ⟨w, ?_, rfl⟩
      rw [List.mem_insertionSort, List.mem_filter]
      refine ⟨hmem0, ?_⟩
      simp only [Bool.and_eq_true, beq_iff_eq, decide_eq_true_eq]
      exact ⟨⟨hu0, hle1⟩, hle2⟩
  have hxdata : ∀ x ∈ getWorkoutsForUserByDate u d tz db,
      x.exercises = exercisesForWorkout db x.workout.id := by
    intro x hx
    unfold getWorkoutsForUserByDate at hx
    obtain ⟨w0, hw0, hfw⟩ := List.mem_map.1 hx
    rw [← hfw]
  have hday : startOfDay tz d ≤ d ∧ d ≤ endOfDay tz d := by
    have h0 : 0 ≤ (d + tz).emod msPerDay :=
      Int.emod_nonneg _ (by norm_num [msPerDay])
    have h1 : (d + tz).emod msPerDay < msPerDay :=
      Int.emod_lt_of_pos _ (by norm_num [msPerDay])
    simp only [msPerDay] at h0 h1
    unfold endOfDay startOfDay msPerDay
    constructor <;> omega
  refine ⟨hmem, ?_, ?_, hday, ?_, ?_⟩
  · intro x hx
    rw [hxdata x hx]
    obtain ⟨hs, hm, hy⟩ := exercisesForWorkout_spec db x.workout.id
    refine ⟨hs, hm, ?_⟩
    intro y hyy
    rw [hy y hyy]
    exact ⟨(setsForExercise_spec db y.exercise.id).1,
      (setsForExercise_spec db y.exercise.id).2⟩
  · unfold getWorkoutsForUserByDate
    dsimp only
    rw [List.map_map]
    exact sorted_insertionSort_map_desc (fun w : WorkoutRow => w.createdAt) _
  · intro hnone
    unfold getWorkoutsForUserByDate
    dsimp only
    have hf : db.workouts.filter
        (fun w => w.userId == u && decide (startOfDay tz d ≤ w.date) &&
          decide (w.date ≤ endOfDay tz d)) = [] := by
      rw [List.filter_eq_nil_iff]
      intro w hw hp
      simp only [Bool.and_eq_true, beq_iff_eq, decide_eq_true_eq] at hp
      exact hnone w hw ⟨hp.1.1, hp.1.2, hp.2⟩
    rw [hf]
    rfl
  · intro w hw hu0
    have heod : endOfDay tz d = startOfDay tz d + 86399999 := by
      unfold endOfDay msPerDay
      ring
    constructor
    · intro hdate
      apply (hmem w).2
      refine ⟨hw, hu0, ?_, le_of_eq hdate⟩
      rw [hdate, heod]
      omega
    · intro hdate hex
      obtain ⟨-, -, -, h4⟩ := (hmem w).1 hex
      rw [hdate] at h4
      omega

/-- A workout dated at the last millisecond of day 0 (23:59:59.999 UTC). -/
def wBoundary : WorkoutRow :=
  ⟨1, 1, "evening", 86399999, none, none, 10, 10⟩

/-- A workout dated at the first millisecond of day 0. -/
def wMorning : WorkoutRow :=
  ⟨2, 1, "morning", 0, none, none, 20, 20⟩

/-- A workout dated 00:00:00.000 of the next day. -/
def wNextDay : WorkoutRow :=
  ⟨3, 1, "next day", 86400000, none, none, 30, 30⟩

/-- A workout of another user on day 0. -/
def wOtherUser : WorkoutRow :=
  ⟨4, 2, "other", 5, none, none, 40, 40⟩

/-- The database exercising the day-window boundaries. -/
def exDbDay : DB :=
  { workouts := [wBoundary, wMorning, wNextDay, wOtherUser]
    exercises := [], sets := [], nextId := 50, now := 99 }

/-- C3 witness: at instant 50000 of day 0 (UTC), user 3 gets the empty
list, the 23:59:59.999 workout is included for user 1, and the next-day
midnight workout is excluded. -/
theorem getWorkoutsForUserByDate_day_filter_witness :
    getWorkoutsForUserByDate 3 50000 0 exDbDay = [] ∧
    (∃ x ∈ getWorkoutsForUserByDate 1 50000 0 exDbDay,
      x.workout = wBoundary) ∧
    ¬(∃ x ∈ getWorkoutsForUserByDate 1 50000 0 exDbDay,
      x.workout = wNextDay) :=
  ⟨(getWorkoutsForUserByDate_day_filter 3 50000 0 exDbDay).2.2.2.2.1
      (by decide),
    ((getWorkoutsForUserByDate_day_filter 1 50000 0 exDbDay).2.2.2.2.2
      wBoundary (by decide) (by decide)).1 (by decide),
    ((getWorkoutsForUserByDate_day_filter 1 50000 0 exDbDay).2.2.2.2.2
      wNextDay (by decide) (by decide)).2 (by decide)⟩
